import Mathlib

/-!
# Verification of the autonote transcription pipeline

A shallow embedding of `autonote.py`: a two-stage pipeline that transcribes an
audio file with a speech-recognition model and then rewrites the transcript
with a text-generation service.  External collaborators (environment
variables, the filesystem, the Whisper model, the chat-completion service,
the clock) are modelled as oracles in a `Sys` record; each operation returns
the updated filesystem, a trace of observable events, and an outcome
(normal termination or `exit(code)`).
-/

set_option autoImplicit false

namespace Autonote

/-- The filesystem: an association list from path to file contents.
Writing a path conses a new binding, so `List.lookup` sees the latest write
(Python's `open(p, "w")` overwrites). -/
abbrev FS := List (String × String)

/-- Python `os.path.isfile`: the path is bound in the filesystem. -/
def os_isfile (fs : FS) (p : String) : Bool := (fs.lookup p).isSome

/-- Python `os.path.join` for a directory and a filename. -/
def ospath_join (d f : String) : String := d ++ "/" ++ f

/-- `TRANSCRIBE_DIR = "transcribed_text"` (autonote.py line 9). -/
def TRANSCRIBE_DIR : String := "transcribed_text"

/-- `CLEAN_DIR = "cleaned_text"` (autonote.py line 10). -/
def CLEAN_DIR : String := "cleaned_text"

/-- Python `str.strip()`: drop whitespace from both ends. -/
def py_strip (s : String) : String :=
  ⟨((s.data.dropWhile Char.isWhitespace).reverse.dropWhile Char.isWhitespace).reverse⟩

/-- Python `str.replace` on character lists, fuelled: at each position, if the
(non-empty) pattern matches, emit the replacement and skip the match;
otherwise keep the character and advance.  The fuel is an upper bound on the
number of positions scanned; `py_replace` supplies the string length, which
always suffices. -/
def py_replace_list (pat rep : List Char) : Nat → List Char → List Char
  | _, [] => []
  | 0, s => s
  | f + 1, c :: rest =>
    if pat ≠ [] ∧ pat.isPrefixOf (c :: rest) then
      rep ++ py_replace_list pat rep f (List.drop pat.length (c :: rest))
    else
      c :: py_replace_list pat rep f rest

/-- Python `str.replace(pat, rep)`: replace every non-overlapping occurrence,
left to right.  (The program only uses non-empty patterns.) -/
def py_replace (s pat rep : String) : String :=
  ⟨py_replace_list pat.data rep.data s.data.length s.data⟩

/-- One message of a chat-completion request (`{"role": ..., "content": ...}`). -/
structure ChatMessage where
  role : String
  content : String
  deriving Repr, DecidableEq

/-- A request to the text-generation service, as built at autonote.py
lines 119-129. -/
structure ChatRequest where
  model : String
  messages : List ChatMessage
  max_tokens : Nat
  temperature : ℚ
  deriving Repr, DecidableEq

/-- Observable events of a run, in order. -/
inductive Event where
  | logInfo (msg : String)
  | logError (msg : String)
  | fileRead (path : String)
  | fileWrite (path : String) (content : String)
  | chatRequest (req : ChatRequest)
  | whisperLoadModel (name : String)
  | whisperTranscribeCall (path : String)
  deriving Repr, DecidableEq

/-- How the run ended: normally, or via Python `exit(code)`. -/
inductive Outcome where
  | normal
  | exited (code : Nat)
  deriving Repr, DecidableEq

/-- Result of running an operation: final filesystem, event trace, outcome. -/
structure RunResult where
  fs : FS
  events : List Event
  outcome : Outcome
  deriving Repr, DecidableEq

/-- The oracle environment: everything outside the program's control.
`readOk p` / `writeOk p` say whether opening path `p` for reading / writing
succeeds (Python raises an exception otherwise); `whisperLoad`,
`whisperRun` and `chatComplete` are the external models/services
(`chatComplete` returns the contents of `response.choices`); `timestamp`
is `datetime.datetime.now().strftime("%Y%m%d%H%M%S")`. -/
structure Sys where
  env : String → Option String
  readOk : String → Bool
  writeOk : String → Bool
  whisperLoad : String → Except String Unit
  whisperRun : String → Except String String
  chatComplete : ChatRequest → Except String (List String)
  timestamp : String

/-- The fallback branch of `load_api_key` (autonote.py lines 27-35): open
`openai_key.txt`, read and strip its contents; `FileNotFoundError` or any
other read error logs and `exit(1)`. -/
def load_key_from_file (s : Sys) (fs : FS) : Except Nat String × List Event :=
  match fs.lookup "openai_key.txt" with
  | none =>
    (.error 1, [.fileRead "openai_key.txt", .logError "OpenAI API key not found"])
  | some content =>
    if s.readOk "openai_key.txt" then
      (.ok (py_strip content), [.fileRead "openai_key.txt"])
    else
      (.error 1,
       [.fileRead "openai_key.txt",
        .logError "An error occurred while reading the API key"])

/-- `load_api_key` (autonote.py lines 23-36): take `OPENAI_API_KEY` from the
environment; if it is unset or empty (`if not api_key:`), fall back to the
file. -/
def load_api_key (s : Sys) (fs : FS) : Except Nat String × List Event :=
  match s.env "OPENAI_API_KEY" with
  | some k => if k = "" then load_key_from_file s fs else (.ok k, [])
  | none => load_key_from_file s fs

/-- `load_client` (autonote.py lines 38-42): the client is determined by the
API key, so it is modelled as the key itself. -/
def load_client (s : Sys) (fs : FS) : Except Nat String × List Event :=
  load_api_key s fs

/-- The fixed instructional prompt prefix of `clean_text` (autonote.py
lines 90-113); the raw transcript is appended after it. -/
def prompt_prefix : String :=
  "Please clean the following text and provide a well-structured synopsis by performing the following tasks:\n"
  ++ "1. Remove filler words and correct any grammatical or typographical errors.\n"
  ++ "2. Ensure that all essential information from the original text is retained accurately.\n"
  ++ "3. Organize the text into clear paragraphs.\n"
  ++ "4. Summarize key points without omitting any relevant details.\n"
  ++ "5. Maintain a formal and organized tone, avoiding profanity and slang.\n"
  ++ "6. While retaining a formal tone, also include the speaker\x27s personal frustrations or reflections.\n"
  ++ "7. Wrap the text so line breaks make it read like a typical essay in any text editor.\n"
  ++ "8. Incorporate subheadings to categorize different sections/topics within the text.\n\n"
  ++ "Do not add any additional commentary or separators.\n\n"
  ++ "Please format the output in plain text.\n\n"
  ++ "### Example Output\n\n"
  ++ "### Main Heading\n\n"
  ++ "**Subheading**\n\n"
  ++ "Text content goes here. This section should provide detailed information relevant to the subheading.\n\n"
  ++ "### Main Heading\n\n"
  ++ "**Subheading**\n\n"
  ++ "Text content goes here. This section should provide detailed information relevant to the subheading.\n\n"
  ++ "### Main Heading\n\n"
  ++ "**Subheading**\n\n"
  ++ "Text content goes here. This section should provide detailed information relevant to the subheading.\n\n"
  ++ "### Conclusion\n\n"
  ++ "Final thoughts and summary of the discussed topics.\n\n"

/-- The chat-completion request built by `clean_text` (autonote.py
lines 119-129): model `gpt-4o`, a single user message holding the prompt
(the fixed prefix followed by the transcript), `max_tokens=4096`,
`temperature=0.5`. -/
def clean_request (transcribed_text : String) : ChatRequest :=
  { model := "gpt-4o"
    messages := [{ role := "user", content := prompt_prefix ++ transcribed_text }]
    max_tokens := 4096
    temperature := 0.5 }

/-- Output path of `clean_text`:
`os.path.join(CLEAN_DIR, f"cleaned_text_{timestamp}.txt")` (line 137). -/
def cleaned_filename (timestamp : String) : String :=
  ospath_join CLEAN_DIR ("cleaned_text_" ++ timestamp ++ ".txt")

/-- Output path of `transcribe_audio`:
`os.path.join(TRANSCRIBE_DIR, f"transcribed_text_{timestamp}.txt")` (line 73). -/
def transcribed_filename (timestamp : String) : String :=
  ospath_join TRANSCRIBE_DIR ("transcribed_text_" ++ timestamp ++ ".txt")

/-- `clean_text` (autonote.py lines 85-144): load the client (may `exit(1)`),
submit the fixed prompt with the transcript appended, take the first
choice's content stripped, and save it to the cleaned directory; any service
error (including an empty choice list) or save error is logged and the
stage ends. -/
def clean_text (s : Sys) (fs : FS) (transcribed_text timestamp : String) : RunResult :=
  match load_client s fs with
  | (.error code, ev) => ⟨fs, ev, .exited code⟩
  | (.ok _client, ev) =>
    let req := clean_request transcribed_text
    let ev := ev ++ [.logInfo "Cleaning text...", .chatRequest req]
    match s.chatComplete req with
    | .error _e => ⟨fs, ev ++ [.logError "Error during text cleaning"], .normal⟩
    | .ok [] => ⟨fs, ev ++ [.logError "Error during text cleaning"], .normal⟩
    | .ok (choice0 :: _) =>
      let cleaned_text := py_strip choice0
      let path := cleaned_filename timestamp
      if s.writeOk path then
        ⟨(path, cleaned_text) :: fs,
         ev ++ [.fileWrite path cleaned_text, .logInfo "Cleaned text saved"],
         .normal⟩
      else
        ⟨fs, ev ++ [.logError "Error saving cleaned text"], .normal⟩

/-- `transcribe_audio` (autonote.py lines 44-83): check the audio file
exists, load the client (may `exit(1)`), load the Whisper model, transcribe,
save the transcript, and only then run `clean_text` on the in-memory text.
Every failure before the save aborts with a logged error; a save failure
also aborts (the `except` branch at lines 78-80 `return`s before line 83). -/
def transcribe_audio (s : Sys) (fs : FS) (audio_file : String) : RunResult :=
  if !(os_isfile fs audio_file) then
    ⟨fs, [.logError "The audio file does not exist"], .normal⟩
  else
    match load_client s fs with
    | (.error code, ev) => ⟨fs, ev, .exited code⟩
    | (.ok _client, ev) =>
      let timestamp := s.timestamp
      let ev := ev ++ [.logInfo "Loading Whisper model...", .whisperLoadModel "medium"]
      match s.whisperLoad "medium" with
      | .error _e => ⟨fs, ev ++ [.logError "Error loading Whisper model"], .normal⟩
      | .ok _ =>
        let ev := ev ++ [.logInfo "Transcribing audio file...", .whisperTranscribeCall audio_file]
        match s.whisperRun audio_file with
        | .error _e => ⟨fs, ev ++ [.logError "Error during transcription"], .normal⟩
        | .ok transcribed_text =>
          let path := transcribed_filename timestamp
          if s.writeOk path then
            let fs2 := (path, transcribed_text) :: fs
            let ev := ev ++ [.fileWrite path transcribed_text, .logInfo "Transcribed text saved"]
            let r := clean_text s fs2 transcribed_text timestamp
            ⟨r.fs, ev ++ r.events, r.outcome⟩
          else
            ⟨fs, ev ++ [.logError "Error saving transcribed text"], .normal⟩

/-- `run_all` (autonote.py lines 146-148): just `transcribe_audio`. -/
def run_all (s : Sys) (fs : FS) (audio_file : String) : RunResult :=
  transcribe_audio s fs audio_file

/-- The three subcommands of the CLI (autonote.py lines 157-170). -/
inductive Cmd where
  | transcribe (audio_file : String)
  | clean (transcription_file : String)
  | all (audio_file : String)
  deriving Repr, DecidableEq

/-- The command dispatcher, `main` (autonote.py lines 174-191).  For
`clean`, the transcript is read from the fixed directory and the identifier
is derived by `filename.replace("transcribed_text_", "").replace(".txt", "")`
(line 186). -/
def main_dispatch (s : Sys) (fs : FS) : Cmd → RunResult
  | .transcribe audio_file => transcribe_audio s fs audio_file
  | .clean transcription_file =>
    let transcription_path := ospath_join TRANSCRIBE_DIR transcription_file
    match fs.lookup transcription_path with
    | none => ⟨fs, [.logError "The transcription file does not exist"], .normal⟩
    | some transcribed_text =>
      if s.readOk transcription_path then
        let timestamp :=
          py_replace (py_replace transcription_file "transcribed_text_" "") ".txt" ""
        let r := clean_text s fs transcribed_text timestamp
        ⟨r.fs, .fileRead transcription_path :: r.events, r.outcome⟩
      else
        ⟨fs, [.fileRead transcription_path, .logError "Error reading transcription file"],
         .normal⟩
  | .all audio_file => run_all s fs audio_file

/-- Discriminator: is this event a request to the text-generation service? -/
def Event.isChatRequest : Event → Bool
  | .chatRequest _ => true
  | _ => false

/-- An environment in which only `OPENAI_API_KEY` is set. -/
def envKeyOnly : String → Option String :=
  fun n => if n = "OPENAI_API_KEY" then some "sk-test" else none

/-- A fully cooperative oracle environment: key in the environment, all file
operations succeed, Whisper transcribes to a fixed text, the service returns
one completion with surrounding whitespace. -/
def sysHappy : Sys :=
  { env := envKeyOnly
    readOk := fun _ => true
    writeOk := fun _ => true
    whisperLoad := fun _ => .ok ()
    whisperRun := fun _ => .ok "hi there"
    chatComplete := fun _ => .ok [" cleaned out "]
    timestamp := "20240101120000" }

/-- Like `sysHappy`, but every attempt to write a file fails. -/
def sysNoWrite : Sys := { sysHappy with writeOk := fun _ => false }

/-- Like `sysHappy`, but no environment variable is set. -/
def sysNoEnv : Sys := { sysHappy with env := fun _ => none }

/-! ## Helper lemmas -/

lemma data_append (s t : String) : (s ++ t).data = s.data ++ t.data := rfl

lemma data_inj {a b : String} (h : a.data = b.data) : a = b := by
  cases a; cases b; cases h; rfl

lemma head_cleaned (a : String) : (cleaned_filename a).data.head? = some 'c' := rfl

lemma head_transcribed (b : String) : (transcribed_filename b).data.head? = some 't' := rfl

lemma cleaned_ne_transcribed (a b : String) :
    cleaned_filename a ≠ transcribed_filename b := by
  intro h
  have h2 : (cleaned_filename a).data.head? = (transcribed_filename b).data.head? :=
    congrArg (fun s => s.data.head?) h
  rw [head_cleaned, head_transcribed] at h2
  exact absurd h2 (by decide)

lemma cleaned_filename_inj {a b : String} (h : cleaned_filename a = cleaned_filename b) :
    a = b := by
  have h2 := congrArg String.data h
  simp only [cleaned_filename, ospath_join, CLEAN_DIR, data_append, List.append_assoc] at h2
  exact data_inj (List.append_cancel_right
    (List.append_cancel_left (List.append_cancel_left (List.append_cancel_left h2))))

lemma lookup_cons_self (k v : String) (fs : FS) : ((k, v) :: fs).lookup k = some v := by
  simp [List.lookup]

lemma lookup_cons_ne {q k : String} (v : String) (fs : FS) (h : q ≠ k) :
    ((k, v) :: fs).lookup q = fs.lookup q := by
  have hb : (q == k) = false := by simp [h]
  simp [List.lookup, hb]

lemma load_api_key_no_write (s : Sys) (fs : FS) (p c : String) :
    Event.fileWrite p c ∉ (load_api_key s fs).2 := by
  unfold load_api_key load_key_from_file
  split
  all_goals first
    | simp
    | (split <;> first
        | simp
        | (split <;> first | simp | (split <;> simp)))

lemma clean_text_write_path {s : Sys} {fs : FS} {t ts p c : String}
    (h : Event.fileWrite p c ∈ (clean_text s fs t ts).events) : p = cleaned_filename ts := by
  revert h
  unfold clean_text
  split
  next k ev heq =>
    intro h
    have hne := load_api_key_no_write s fs p c
    have heq2 : load_api_key s fs = (Except.error k, ev) := heq
    rw [heq2] at hne
    exact absurd (by simpa using h) (by simpa using hne)
  next k ev heq =>
    intro h
    have hne : Event.fileWrite p c ∉ ev := by
      have hne := load_api_key_no_write s fs p c
      have heq2 : load_api_key s fs = (Except.ok k, ev) := heq
      rw [heq2] at hne
      simpa using hne
    dsimp only at h
    split at h
    · simp only [List.mem_append] at h
      rcases h with h | h
      · exact absurd (by simpa using h) (by simpa using hne)
      · simp at h
    · simp only [List.mem_append] at h
      rcases h with h | h
      · exact absurd (by simpa using h) (by simpa using hne)
      · simp at h
    next choice0 rest =>
      split at h
      · simp only [List.mem_append, List.mem_cons] at h
        rcases h with (h | h) | h
        · exact absurd h hne
        · simp at h
        · rcases h with h | h
          · exact (Event.fileWrite.injEq _ _ _ _ ▸ h).1
          · simp at h
      · simp only [List.mem_append] at h
        rcases h with h | h
        · exact absurd (by simpa using h) (by simpa using hne)
        · simp at h

lemma clean_text_lookup_ne {s : Sys} {fs : FS} {t ts q : String}
    (h : q ≠ cleaned_filename ts) :
    ((clean_text s fs t ts).fs).lookup q = fs.lookup q := by
  unfold clean_text
  split
  · rfl
  · dsimp only
    split
    · rfl
    · rfl
    · split
      · exact lookup_cons_ne _ fs h
      · rfl

lemma transcribe_cleaned_write {s : Sys} {fs : FS} {a ts c : String}
    (h : Event.fileWrite (cleaned_filename ts) c ∈ (transcribe_audio s fs a).events) :
    ((transcribe_audio s fs a).fs).lookup (transcribed_filename ts) ≠ none := by
  unfold transcribe_audio at h ⊢
  split at h
  next hfile =>
    simp at h
  next hfile =>
    split at h
    next k ev heq =>
      have hne := load_api_key_no_write s fs (cleaned_filename ts) c
      have heq2 : load_api_key s fs = (Except.error k, ev) := heq
      rw [heq2] at hne
      exact absurd (by simpa using h) (by simpa using hne)
    next k ev heq =>
      have hne : Event.fileWrite (cleaned_filename ts) c ∉ ev := by
        have hne := load_api_key_no_write s fs (cleaned_filename ts) c
        have heq2 : load_api_key s fs = (Except.ok k, ev) := heq
        rw [heq2] at hne
        simpa using hne
      dsimp only at h ⊢
      split at h
      next e heq3 =>
        simp only [List.mem_append] at h
        rcases h with (h | h) | h
        · exact absurd h hne
        · simp at h
        · simp at h
      next t2 heq3 =>
        try dsimp only at h ⊢
        split at h
        next e heq4 =>
          simp only [List.mem_append] at h
          rcases h with ((h | h) | h) | h
          · exact absurd h hne
          · simp at h
          · simp at h
          · simp at h
        next ttext heq4 =>
          try dsimp only at h ⊢
          split at h
          next hw =>
            try dsimp only at h ⊢
            simp only [List.mem_append, List.mem_cons] at h
            rcases h with (((h | h) | h) | h) | h
            · exact absurd h hne
            · simp at h
            · simp at h
            · rcases h with h | h
              · exact absurd ((Event.fileWrite.injEq _ _ _ _ ▸ h).1)
                  (cleaned_ne_transcribed ts s.timestamp)
              · simp at h
            · have hts : ts = s.timestamp := cleaned_filename_inj (clean_text_write_path h)
              subst hts
              rw [if_neg hfile, if_pos hw]
              dsimp only
              rw [clean_text_lookup_ne (Ne.symm (cleaned_ne_transcribed _ _))]
              rw [lookup_cons_self]
              simp
          next hw =>
            simp only [List.mem_append] at h
            rcases h with ((h | h) | h) | h
            · exact absurd h hne
            · simp at h
            · simp at h
            · simp at h

lemma load_api_key_env {s : Sys} {fs : FS} {X : String}
    (henv : s.env "OPENAI_API_KEY" = some X) (hX : X ≠ "") :
    load_api_key s fs = (.ok X, []) := by
  unfold load_api_key
  rw [henv]
  simp [hX]

lemma load_api_key_to_file {s : Sys} {fs : FS}
    (henv : s.env "OPENAI_API_KEY" = none ∨ s.env "OPENAI_API_KEY" = some "") :
    load_api_key s fs = load_key_from_file s fs := by
  rcases henv with henv | henv
  all_goals
    unfold load_api_key
    rw [henv]
    try simp

lemma load_api_key_missing {s : Sys} {fs : FS}
    (henv : s.env "OPENAI_API_KEY" = none ∨ s.env "OPENAI_API_KEY" = some "")
    (hfile : fs.lookup "openai_key.txt" = none) :
    load_api_key s fs =
      (.error 1, [.fileRead "openai_key.txt", .logError "OpenAI API key not found"]) := by
  rw [load_api_key_to_file henv]
  unfold load_key_from_file
  rw [hfile]

/-! ## Claims -/

/-- C5: credential resolution prioritizes the environment variable.  Whenever
`OPENAI_API_KEY` is set to a non-empty value `X`, `load_api_key` returns `X`
with an empty event trace — so in particular it never reads the fallback
file, whatever the filesystem holds at `openai_key.txt` (the statement
quantifies over every filesystem, including ones where the file exists with
different content). -/
theorem C5_env_priority (s : Sys) (fs : FS) (X : String)
    (henv : s.env "OPENAI_API_KEY" = some X) (hX : X ≠ "") :
    load_api_key s fs = (.ok X, []) :=
  load_api_key_env henv hX

/-- Witness for C5 at a concrete input: the environment holds `sk-test`, the
fallback file exists with different content, and the loader returns
`sk-test` without any file access. -/
theorem C5_env_priority_witness :
    load_api_key sysHappy [("openai_key.txt", "different-key")] = (.ok "sk-test", []) :=
  C5_env_priority sysHappy [("openai_key.txt", "different-key")] "sk-test" rfl (by decide)

/-- C6: when the environment variable is unset and the fallback file exists
and is readable, the loader returns the file contents with surrounding
whitespace stripped. -/
theorem C6_fallback_trim (s : Sys) (fs : FS) (content : String)
    (henv : s.env "OPENAI_API_KEY" = none)
    (hfile : fs.lookup "openai_key.txt" = some content)
    (hread : s.readOk "openai_key.txt" = true) :
    (load_api_key s fs).1 = .ok (py_strip content) := by
  rw [load_api_key_to_file (Or.inl henv)]
  unfold load_key_from_file
  rw [hfile]
  simp [hread]

/-- Witness for C6 at the spec input: a fallback file containing `Y\n`
yields the credential `Y`. -/
theorem C6_fallback_trim_witness :
    (load_api_key sysNoEnv [("openai_key.txt", "Y\n")]).1 = .ok "Y" :=
  C6_fallback_trim sysNoEnv [("openai_key.txt", "Y\n")] "Y\n" rfl rfl rfl

/-- Counterexample to C2 as stated: with the environment variable unset and
a fallback file containing only whitespace, `load_api_key` returns the EMPTY
credential string and does not terminate the process — the claimed
postcondition (non-empty result, or fatal exit when neither source yields a
value) fails. -/
theorem C2_counterexample :
    load_api_key sysNoEnv [("openai_key.txt", "\n")] =
      (.ok "", [.fileRead "openai_key.txt"]) := rfl

/-- C2 amended: when the environment yields no value, the loader exits with
code 1 exactly when the fallback file is missing or unreadable; when the
file is readable it returns its stripped contents, which may be empty. -/
theorem C2_amended (s : Sys) (fs : FS)
    (henv : s.env "OPENAI_API_KEY" = none ∨ s.env "OPENAI_API_KEY" = some "") :
    (fs.lookup "openai_key.txt" = none →
      load_api_key s fs =
        (.error 1, [.fileRead "openai_key.txt", .logError "OpenAI API key not found"])) ∧
    (∀ content, fs.lookup "openai_key.txt" = some content →
      s.readOk "openai_key.txt" = false →
      load_api_key s fs =
        (.error 1, [.fileRead "openai_key.txt",
                    .logError "An error occurred while reading the API key"])) ∧
    (∀ content, fs.lookup "openai_key.txt" = some content →
      s.readOk "openai_key.txt" = true →
      (load_api_key s fs).1 = .ok (py_strip content)) := by
  refine ⟨fun hfile => load_api_key_missing henv hfile,
          fun content hfile hread => ?_, fun content hfile hread => ?_⟩ <;>
    rw [load_api_key_to_file henv] <;> unfold load_key_from_file <;>
      rw [hfile] <;> simp [hread]

/-- Witness for C2 amended: no environment variable and no fallback file
gives the fatal `exit(1)`. -/
theorem C2_amended_witness :
    load_api_key sysNoEnv [] =
      (.error 1, [.fileRead "openai_key.txt", .logError "OpenAI API key not found"]) :=
  (C2_amended sysNoEnv [] (Or.inl rfl)).1 rfl

/-- C4: for an audio path that is not an existing file, `transcribe_audio`
logs an error and stops: the filesystem is unchanged (no file is created in
either output directory), the only event is the error report, and the
process continues normally. -/
theorem C4_missing_audio (s : Sys) (fs : FS) (audio_file : String)
    (h : fs.lookup audio_file = none) :
    transcribe_audio s fs audio_file =
      ⟨fs, [.logError "The audio file does not exist"], .normal⟩ := by
  unfold transcribe_audio
  rw [show (!os_isfile fs audio_file) = true by simp [os_isfile, h]]
  simp

/-- Witness for C4: a missing audio path on an empty filesystem. -/
theorem C4_missing_audio_witness :
    transcribe_audio sysHappy [] "missing.mp3" =
      ⟨[], [.logError "The audio file does not exist"], .normal⟩ :=
  C4_missing_audio sysHappy [] "missing.mp3" rfl

/-- C8: the run-all operation is the transcribe operation: `run_all` and the
`all` subcommand perform literally the same computation as `transcribe_audio`
and the `transcribe` subcommand on every input. -/
theorem C8_run_all_is_transcribe (s : Sys) (fs : FS) (audio_file : String) :
    main_dispatch s fs (.all audio_file) = main_dispatch s fs (.transcribe audio_file) ∧
    run_all s fs audio_file = transcribe_audio s fs audio_file :=
  ⟨rfl, rfl⟩

/-- C10: `transcribe_audio` resolves the API credential before touching the
speech-recognition model.  For an existing audio file, if the environment
variable yields no value and the fallback key file is missing, the run exits
with code 1, the filesystem is unchanged (no transcript is produced), and
the trace shows no Whisper activity — only the failed key lookup. -/
theorem C10_key_before_model (s : Sys) (fs : FS) (audio_file content : String)
    (haudio : fs.lookup audio_file = some content)
    (henv : s.env "OPENAI_API_KEY" = none ∨ s.env "OPENAI_API_KEY" = some "")
    (hfile : fs.lookup "openai_key.txt" = none) :
    transcribe_audio s fs audio_file =
      ⟨fs, [.fileRead "openai_key.txt", .logError "OpenAI API key not found"], .exited 1⟩ := by
  unfold transcribe_audio
  rw [show (!os_isfile fs audio_file) = false by simp [os_isfile, haudio]]
  rw [show load_client s fs =
        (.error 1, [.fileRead "openai_key.txt", .logError "OpenAI API key not found"]) from
      load_api_key_missing henv hfile]
  simp

/-- Witness for C10: existing audio, empty environment, no key file. -/
theorem C10_key_before_model_witness :
    transcribe_audio sysNoEnv [("a.mp3", "AUDIO")] "a.mp3" =
      ⟨[("a.mp3", "AUDIO")],
       [.fileRead "openai_key.txt", .logError "OpenAI API key not found"], .exited 1⟩ :=
  C10_key_before_model sysNoEnv [("a.mp3", "AUDIO")] "a.mp3" "AUDIO" rfl (Or.inl rfl) rfl

/-- Counterexample to C1 as stated: with a cooperative environment except
that every file write fails, the combined flow transcribes successfully
(the trace shows the Whisper call) and then logs the transcript save error —
but the trace contains NO chat-completion request and no cleanup log, and
the filesystem is unchanged: the in-memory transcript is NOT handed to the
cleanup stage, because the save-failure handler returns before `clean_text`
is called (autonote.py lines 78-83). -/
theorem C1_counterexample :
    (transcribe_audio sysNoWrite [("a.mp3", "AUDIO")] "a.mp3").events =
        [.logInfo "Loading Whisper model...", .whisperLoadModel "medium",
         .logInfo "Transcribing audio file...", .whisperTranscribeCall "a.mp3",
         .logError "Error saving transcribed text"] ∧
    (transcribe_audio sysNoWrite [("a.mp3", "AUDIO")] "a.mp3").events.filter
        Event.isChatRequest = [] ∧
    (transcribe_audio sysNoWrite [("a.mp3", "AUDIO")] "a.mp3").fs = [("a.mp3", "AUDIO")] :=
  ⟨rfl, rfl, rfl⟩

/-- C1 amended: in the combined flow, a failure to write the transcript file
ABORTS the run — the cleanup stage is not invoked (the trace ends at the
save error, with no chat request), the filesystem is unchanged, and the
process exits normally.  The save and the cleanup handoff are not
independent. -/
theorem C1_amended (s : Sys) (fs : FS) (audio_file content K t : String)
    (haudio : fs.lookup audio_file = some content)
    (henv : s.env "OPENAI_API_KEY" = some K) (hK : K ≠ "")
    (hwhisper : s.whisperLoad "medium" = .ok ())
    (hrun : s.whisperRun audio_file = .ok t)
    (hw : s.writeOk (transcribed_filename s.timestamp) = false) :
    transcribe_audio s fs audio_file =
      ⟨fs, [.logInfo "Loading Whisper model...", .whisperLoadModel "medium",
            .logInfo "Transcribing audio file...", .whisperTranscribeCall audio_file,
            .logError "Error saving transcribed text"], .normal⟩ := by
  unfold transcribe_audio
  rw [show (!os_isfile fs audio_file) = false by simp [os_isfile, haudio]]
  rw [show load_client s fs = (.ok K, []) from load_api_key_env henv hK]
  dsimp only
  rw [hwhisper, hrun, hw]
  simp

/-- Witness for C1 amended at the concrete failing-write system. -/
theorem C1_amended_witness :
    transcribe_audio sysNoWrite [("b.mp3", "AUDIO")] "b.mp3" =
      ⟨[("b.mp3", "AUDIO")],
       [.logInfo "Loading Whisper model...", .whisperLoadModel "medium",
        .logInfo "Transcribing audio file...", .whisperTranscribeCall "b.mp3",
        .logError "Error saving transcribed text"], .normal⟩ :=
  C1_amended sysNoWrite [("b.mp3", "AUDIO")] "b.mp3" "AUDIO" "sk-test" "hi there"
    rfl rfl (by decide) rfl rfl rfl

/-- C7: the clean subcommand on an existing transcript file named
`transcribed_text_20240101120000.txt` derives the identifier
`20240101120000` by stripping the standard prefix and suffix, and (when the
service succeeds and the write succeeds) writes the cleaned output to
`cleaned_text/cleaned_text_20240101120000.txt`. -/
theorem C7_clean_derives_id (s : Sys) (fs : FS) (txt K choice : String) (rest : List String)
    (henv : s.env "OPENAI_API_KEY" = some K) (hK : K ≠ "")
    (hfile : fs.lookup "transcribed_text/transcribed_text_20240101120000.txt" = some txt)
    (hread : s.readOk "transcribed_text/transcribed_text_20240101120000.txt" = true)
    (hchat : s.chatComplete (clean_request txt) = .ok (choice :: rest))
    (hwrite : s.writeOk "cleaned_text/cleaned_text_20240101120000.txt" = true) :
    Event.fileWrite "cleaned_text/cleaned_text_20240101120000.txt" (py_strip choice) ∈
      (main_dispatch s fs (.clean "transcribed_text_20240101120000.txt")).events ∧
    ((main_dispatch s fs (.clean "transcribed_text_20240101120000.txt")).fs).lookup
      "cleaned_text/cleaned_text_20240101120000.txt" = some (py_strip choice) := by
  have hclean : clean_text s fs txt "20240101120000" =
      ⟨("cleaned_text/cleaned_text_20240101120000.txt", py_strip choice) :: fs,
       [.logInfo "Cleaning text...", .chatRequest (clean_request txt),
        .fileWrite "cleaned_text/cleaned_text_20240101120000.txt" (py_strip choice),
        .logInfo "Cleaned text saved"], .normal⟩ := by
    unfold clean_text
    rw [show load_client s fs = (.ok K, []) from load_api_key_env henv hK]
    dsimp only
    rw [hchat]
    dsimp only
    rw [show cleaned_filename "20240101120000" =
          "cleaned_text/cleaned_text_20240101120000.txt" from rfl]
    rw [hwrite]
    simp
  have hdisp : main_dispatch s fs (.clean "transcribed_text_20240101120000.txt") =
      ⟨(clean_text s fs txt "20240101120000").fs,
       .fileRead "transcribed_text/transcribed_text_20240101120000.txt" ::
         (clean_text s fs txt "20240101120000").events,
       (clean_text s fs txt "20240101120000").outcome⟩ := by
    unfold main_dispatch
    dsimp only
    rw [show ospath_join TRANSCRIBE_DIR "transcribed_text_20240101120000.txt" =
          "transcribed_text/transcribed_text_20240101120000.txt" from rfl]
    rw [hfile]
    try dsimp only
    rw [hread]
    try dsimp only
    rw [show py_replace (py_replace "transcribed_text_20240101120000.txt"
          "transcribed_text_" "") ".txt" "" = "20240101120000" from by decide]
    simp
  rw [hdisp, hclean]
  exact ⟨by simp, by rw [lookup_cons_self]⟩

/-- Witness for C7: concrete happy-path system with the spec transcript. -/
theorem C7_clean_derives_id_witness :
    Event.fileWrite "cleaned_text/cleaned_text_20240101120000.txt" "cleaned out" ∈
      (main_dispatch sysHappy
        [("transcribed_text/transcribed_text_20240101120000.txt", "hello world")]
        (.clean "transcribed_text_20240101120000.txt")).events ∧
    ((main_dispatch sysHappy
        [("transcribed_text/transcribed_text_20240101120000.txt", "hello world")]
        (.clean "transcribed_text_20240101120000.txt")).fs).lookup
      "cleaned_text/cleaned_text_20240101120000.txt" = some "cleaned out" :=
  C7_clean_derives_id sysHappy
    [("transcribed_text/transcribed_text_20240101120000.txt", "hello world")]
    "hello world" "sk-test" " cleaned out " []
    rfl (by decide) rfl rfl rfl rfl

/-- C9: for every transcript, `clean_text` submits to the service exactly one
request; that request carries the fixed model, limits and temperature and a
single user message whose content is the fixed instructional template with
the raw transcript appended verbatim; and on success (first completion
`choice`) the cleaned text saved is `choice` with surrounding whitespace
stripped. -/
theorem C9_single_verbatim_prompt (s : Sys) (fs : FS) (txt ts K choice : String)
    (rest : List String)
    (henv : s.env "OPENAI_API_KEY" = some K) (hK : K ≠ "")
    (hchat : s.chatComplete (clean_request txt) = .ok (choice :: rest)) :
    (clean_text s fs txt ts).events.filter Event.isChatRequest =
        [.chatRequest (clean_request txt)] ∧
    clean_request txt =
      { model := "gpt-4o",
        messages := [{ role := "user", content := prompt_prefix ++ txt }],
        max_tokens := 4096, temperature := 0.5 } ∧
    (s.writeOk (cleaned_filename ts) = true →
      ((clean_text s fs txt ts).fs).lookup (cleaned_filename ts) = some (py_strip choice)) := by
  have hload : load_client s fs = (.ok K, []) := load_api_key_env henv hK
  refine ⟨?_, rfl, fun hw => ?_⟩
  · unfold clean_text
    rw [hload]
    dsimp only
    rw [hchat]
    dsimp only
    split
    · simp [Event.isChatRequest]
    · simp [Event.isChatRequest]
  · unfold clean_text
    rw [hload]
    dsimp only
    rw [hchat]
    dsimp only
    rw [hw]
    simp only [if_pos]
    rw [lookup_cons_self]

/-- Witness for C9 at a concrete transcript. -/
theorem C9_single_verbatim_prompt_witness :
    (clean_text sysHappy [] "hello" "TS").events.filter Event.isChatRequest =
        [.chatRequest (clean_request "hello")] ∧
    clean_request "hello" =
      { model := "gpt-4o",
        messages := [{ role := "user", content := prompt_prefix ++ "hello" }],
        max_tokens := 4096, temperature := 0.5 } ∧
    (sysHappy.writeOk (cleaned_filename "TS") = true →
      ((clean_text sysHappy [] "hello" "TS").fs).lookup (cleaned_filename "TS") =
        some "cleaned out") :=
  C9_single_verbatim_prompt sysHappy [] "hello" "TS" "sk-test" " cleaned out " []
    rfl (by decide) rfl

/-- Counterexample to C3 as stated: the clean subcommand accepts ANY
existing filename in the transcript directory, not only standard ones.  For
a transcript stored as `transcribed_text/notes.txt`, the derived identifier
is `notes`, so the run writes `cleaned_text/cleaned_text_notes.txt` while no
file `transcribed_text/transcribed_text_notes.txt` exists — a cleaned
artifact whose timestamp corresponds to no transcript artifact. -/
theorem C3_counterexample :
    Event.fileWrite "cleaned_text/cleaned_text_notes.txt" "cleaned out" ∈
      (main_dispatch sysHappy [("transcribed_text/notes.txt", "hello")]
        (.clean "notes.txt")).events ∧
    ((main_dispatch sysHappy [("transcribed_text/notes.txt", "hello")]
        (.clean "notes.txt")).fs).lookup
      "transcribed_text/transcribed_text_notes.txt" = none := by
  refine ⟨?_, rfl⟩
  show Event.fileWrite "cleaned_text/cleaned_text_notes.txt" "cleaned out" ∈
    [Event.fileRead "transcribed_text/notes.txt",
     Event.logInfo "Cleaning text...", Event.chatRequest (clean_request "hello"),
     Event.fileWrite "cleaned_text/cleaned_text_notes.txt" "cleaned out",
     Event.logInfo "Cleaned text saved"]
  simp

/-- C3 amended: whenever any of the three operations writes a cleaned
artifact `cleaned_text_<ts>.txt`, a transcript artifact
`transcribed_text_<ts>.txt` exists in the transcript directory of the final
filesystem — provided that a clean subcommand is only invoked on a filename
of the standard form `transcribed_text_<ts>.txt` (whose identifier the
prefix/suffix stripping recovers).  Without that proviso the invariant fails
(see the counterexample). -/
theorem C3_cleaned_has_transcript (s : Sys) (fs : FS) (cmd : Cmd) (ts c : String)
    (hstd : ∀ f, cmd = Cmd.clean f →
      f = "transcribed_text_" ++
            py_replace (py_replace f "transcribed_text_" "") ".txt" "" ++ ".txt")
    (hw : Event.fileWrite (cleaned_filename ts) c ∈ (main_dispatch s fs cmd).events) :
    ((main_dispatch s fs cmd).fs).lookup (transcribed_filename ts) ≠ none := by
  cases cmd with
  | transcribe a => exact transcribe_cleaned_write hw
  | all a => exact transcribe_cleaned_write hw
  | clean f =>
    have hstd2 := hstd f rfl
    revert hw
    unfold main_dispatch
    dsimp only
    split
    next heq =>
      intro hw
      simp at hw
    next content heq =>
      split
      next hread =>
        intro hw
        dsimp only at hw ⊢
        rcases List.mem_cons.mp hw with hw2 | hw2
        · simp at hw2
        · have hts : ts = py_replace (py_replace f "transcribed_text_" "") ".txt" "" :=
            cleaned_filename_inj (clean_text_write_path hw2)
          rw [clean_text_lookup_ne (Ne.symm (cleaned_ne_transcribed _ _))]
          rw [hts]
          have hpath : transcribed_filename
              (py_replace (py_replace f "transcribed_text_" "") ".txt" "") =
              ospath_join TRANSCRIBE_DIR f := by
            unfold transcribed_filename
            rw [← hstd2]
          rw [hpath, heq]
          simp
      next hread =>
        intro hw
        simp at hw

/-- Witness for C3 amended: the clean subcommand on the standard filename
`transcribed_text_20240101120000.txt` leaves the matching transcript in
place. -/
theorem C3_cleaned_has_transcript_witness :
    ((main_dispatch sysHappy
        [("transcribed_text/transcribed_text_20240101120000.txt", "hello world")]
        (.clean "transcribed_text_20240101120000.txt")).fs).lookup
      (transcribed_filename "20240101120000") ≠ none :=
  C3_cleaned_has_transcript sysHappy
    [("transcribed_text/transcribed_text_20240101120000.txt", "hello world")]
    (.clean "transcribed_text_20240101120000.txt") "20240101120000" "cleaned out"
    (by intro f hf
        injection hf with h2
        subst h2
        decide)
    (by show Event.fileWrite (cleaned_filename "20240101120000") "cleaned out" ∈
          [Event.fileRead "transcribed_text/transcribed_text_20240101120000.txt",
           Event.logInfo "Cleaning text...",
           Event.chatRequest (clean_request "hello world"),
           Event.fileWrite "cleaned_text/cleaned_text_20240101120000.txt" "cleaned out",
           Event.logInfo "Cleaned text saved"]
        simp
        rfl)

end Autonote
